import Mathlib

/-!
Verification of the kobotest Submission Reconciliation Subsystem.

Shallow embedding of the reconciliation core of the repository:
timestamp normalization (src/api/views.py, src/api/management/commands/
fetch_kobo_data.py), the webhook upsert path (src/api/views.py), the batch
sync command (src/api/management/commands/fetch_kobo_data.py), the remote
API client construction and request wrapper, and the pagination loop
(src/api/services/kobo_client.py), over the persisted model
(src/api/models.py).

Machine time is passed explicitly: every operation that reads the clock
takes the current instant (seconds since the epoch) as a parameter.
-/

/-- A Python `datetime` value. `wall` is the wall-clock reading of the
components, encoded as seconds since the epoch as if the components were
read at UTC; `tz` is the `tzinfo` UTC offset in seconds (`none` = naive). -/
structure PyDatetime where
  wall : Int
  tz : Option Int
deriving DecidableEq, Repr

/-- The instant an aware datetime denotes (seconds since the epoch);
`none` for a naive datetime. -/
def PyDatetime.instant (dt : PyDatetime) : Option Int :=
  dt.tz.map (fun off => dt.wall - off)

/-- Python `dt.astimezone(tz)` on an aware datetime: the same instant
re-expressed at offset `off`. (On a naive datetime `astimezone` would assume
system local time; that case is unreachable in the embedded code paths,
which always attach a `tzinfo` first, so it is left as the identity.) -/
def PyDatetime.astimezone (dt : PyDatetime) (off : Int) : PyDatetime :=
  match dt.tz with
  | some o => { wall := dt.wall - o + off, tz := some off }
  | none => dt

/-- UTC offset of `ZoneInfo("Asia/Dhaka")` in seconds (UTC+6, no DST),
used by the webhook path in src/api/views.py line 90. -/
def dhakaOffset : Int := 21600

/-- Outcome of reading the `_submission_time` field of a payload and running
`datetime.fromisoformat(s.replace("Z", "+00:00"))` on it: the field is
absent or falsy (empty string), present but raising on parse, parsing to a
naive datetime (a well-formed ISO-8601 string with no timezone offset, whose
wall-clock components read `wall`), or parsing to an aware datetime (offset
`off` seconds appeared in the string, possibly via the replaced `Z`). -/
inductive TsField where
  | absent
  | bad
  | okNaive (wall : Int)
  | okAware (wall : Int) (off : Int)
deriving DecidableEq, Repr

/-- Modelled from the spec: the Django settings module (`TIME_ZONE`,
`USE_TZ`) is code of this repository that is not under src/. The spec's
Timestamp Normalizer contract states that a timestamp lacking an offset is
assumed UTC and that every emitted instant is timezone-aware, so the current
timezone that `django.utils.timezone.make_aware` attaches is modelled as
UTC (offset `0`), and `USE_TZ` as enabled. -/
def djangoCurrentOffset : Int := 0

/-- Django `timezone.now()` (with `USE_TZ` enabled, see
`djangoCurrentOffset`): the current instant as an aware UTC datetime. -/
def djangoNow (now : Int) : PyDatetime := { wall := now, tz := some 0 }

/-- Django `timezone.make_aware(dt)`: attach the current timezone
(`djangoCurrentOffset`) to a naive datetime's wall-clock reading. -/
def makeAware (dt : PyDatetime) : PyDatetime :=
  { dt with tz := some djangoCurrentOffset }

/-- Timestamp normalization on the webhook path (`KoboWebhookView.post`,
src/api/views.py lines 81-95): on an absent/falsy field or a parse failure
fall back to `timezone.now()`; otherwise take the parsed datetime, set
`tzinfo` to UTC if it is naive, and convert it to Asia/Dhaka. -/
def webhookDateSubmitted (ts : TsField) (now : Int) : PyDatetime :=
  match ts with
  | .absent => djangoNow now
  | .bad => djangoNow now
  | .okNaive w => PyDatetime.astimezone { wall := w, tz := some 0 } dhakaOffset
  | .okAware w off => PyDatetime.astimezone { wall := w, tz := some off } dhakaOffset

/-- Timestamp normalization on the batch path (`Command.handle`,
src/api/management/commands/fetch_kobo_data.py lines 98-110): on an
absent/falsy field or a parse failure fall back to `timezone.now()`;
otherwise take the parsed datetime and, if it is naive, attach the current
timezone with `timezone.make_aware`. -/
def batchDateSubmitted (ts : TsField) (now : Int) : PyDatetime :=
  match ts with
  | .absent => djangoNow now
  | .bad => djangoNow now
  | .okNaive w => makeAware { wall := w, tz := none }
  | .okAware w off => { wall := w, tz := some off }

/-- C2: for every well-formed ISO-8601 timestamp that lacks a timezone
offset (parse outcome `TsField.okNaive w`, where `w` is the wall-clock
reading of the string's components), both the webhook-path and the
batch-path normalizers produce a datetime whose instant equals the parsed
wall-clock value taken at offset +00:00, i.e. `w` itself. -/
theorem C2_naive_timestamp_assumed_utc (w now : Int) :
    (webhookDateSubmitted (.okNaive w) now).instant = some w
    ∧ (batchDateSubmitted (.okNaive w) now).instant = some w := by
  constructor <;>
    simp [webhookDateSubmitted, batchDateSubmitted, PyDatetime.instant,
      PyDatetime.astimezone, makeAware, djangoCurrentOffset, dhakaOffset]

/-- C6: for an absent timestamp field and for a timestamp string that fails
to parse, both normalizers return `timezone.now()` — the current wall-clock
instant as a timezone-aware datetime whose instant is the processing time —
and no normalizer call on any input emits a naive datetime. -/
theorem C6_timestamp_fallback_now_always_aware :
    (∀ now : Int,
      webhookDateSubmitted .absent now = djangoNow now
      ∧ webhookDateSubmitted .bad now = djangoNow now
      ∧ batchDateSubmitted .absent now = djangoNow now
      ∧ batchDateSubmitted .bad now = djangoNow now
      ∧ (djangoNow now).instant = some now)
    ∧ (∀ (ts : TsField) (now : Int),
      (webhookDateSubmitted ts now).tz.isSome
      ∧ (batchDateSubmitted ts now).tz.isSome) := by
  constructor
  · intro now
    refine ⟨rfl, rfl, rfl, rfl, ?_⟩
    simp [djangoNow, PyDatetime.instant]
  · intro ts now
    cases ts <;>
      simp [webhookDateSubmitted, batchDateSubmitted, djangoNow,
        makeAware, PyDatetime.astimezone]

/-- Python truthiness of an optional string value read with `.get(...)`:
a missing key and the empty string are falsy. -/
def truthy : Option String → Bool
  | none => false
  | some s => s != ""

/-- A JSON submission payload, restricted to the keys the reconciliation
code reads (`_uuid`, `_xform_id_string`, `formid`, `_submission_time`);
`extra` carries the remaining key-value pairs verbatim, so that payloads
with identical control fields can still differ. The stored `data` column
holds the whole payload. -/
structure Payload where
  uuid : Option String
  xform_id_string : Option String
  formid : Option String
  submission_time : TsField
  extra : List (String × String)
deriving DecidableEq, Repr

/-- Evaluation of
`payload.get("_xform_id_string") or payload.get("formid") or "unknown"`
(src/api/views.py line 78), with Python truthiness at each link. -/
def Payload.form_uid (p : Payload) : String :=
  if truthy p.xform_id_string then p.xform_id_string.getD ""
  else if truthy p.formid then p.formid.getD ""
  else "unknown"

/-- A persisted `KoboSubmission` row (src/api/models.py lines 4-28):
`date_synced` is `auto_now_add` (set at creation), `date_updated` is
`auto_now` (set on every save); both are stored as instants. -/
structure KoboSubmission where
  uuid : String
  form_uid : String
  data : Payload
  date_submitted : PyDatetime
  date_synced : Int
  date_updated : Int
deriving DecidableEq, Repr

/-- The submission table, one element per stored row. -/
abbrev Store := List KoboSubmission

/-- Django
`KoboSubmission.objects.update_or_create(uuid=..., defaults=...)`:
atomically look up the row keyed by `uuid` and overwrite the `defaults`
fields on it (`auto_now` refreshing `date_updated`), or insert a new row
(`auto_now_add` setting `date_synced`). Returns the new table and the
`created` flag. -/
def update_or_create (store : Store) (uuid form_uid : String) (data : Payload)
    (date_submitted : PyDatetime) (now : Int) : Store × Bool :=
  if store.any (fun r => r.uuid == uuid) then
    (store.map (fun r =>
      if r.uuid == uuid then
        { r with form_uid := form_uid, data := data,
                 date_submitted := date_submitted, date_updated := now }
      else r), false)
  else
    (store ++ [{ uuid := uuid, form_uid := form_uid, data := data,
                 date_submitted := date_submitted,
                 date_synced := now, date_updated := now }], true)

/-- HTTP response produced by the webhook view: the 400 error body, or the
ok body carrying the action, the uuid and the HTTP status code. -/
inductive WebhookResponse where
  | badRequest (error : String)
  | ok (action : String) (uuid : String) (httpStatus : Nat)
deriving DecidableEq, Repr

/-- `KoboWebhookView.post` (src/api/views.py lines 65-114): reject a payload
whose `_uuid` is absent or falsy with 400 and the fixed error body; else
derive the form uid, normalize the submission timestamp, upsert, and answer
201/"created" or 200/"updated". Returns the response and the new table. -/
def KoboWebhookView.post (store : Store) (p : Payload) (now : Int) :
    WebhookResponse × Store :=
  if !truthy p.uuid then
    (.badRequest "Missing _uuid in payload", store)
  else
    let uuid := p.uuid.getD ""
    let date_submitted := webhookDateSubmitted p.submission_time now
    let res := update_or_create store uuid p.form_uid p date_submitted now
    (.ok (if res.2 then "created" else "updated") uuid
      (if res.2 then 201 else 200), res.1)

/-- C5: a webhook payload whose `_uuid` field is absent is answered with
400 Bad Request and the body `Missing _uuid in payload`, and the submission
table is returned unchanged — no row is created or mutated. -/
theorem C5_webhook_missing_uuid_rejected (store : Store) (p : Payload)
    (now : Int) (h : p.uuid = none) :
    KoboWebhookView.post store p now
      = (.badRequest "Missing _uuid in payload", store) := by
  simp [KoboWebhookView.post, truthy, h]

/-- C5 witness: the rejection at a concrete uuid-less payload over the
empty table. -/
theorem C5_webhook_missing_uuid_rejected_witness :
    KoboWebhookView.post [] ⟨none, some "f1", none, .absent, []⟩ 7
      = (.badRequest "Missing _uuid in payload", []) :=
  C5_webhook_missing_uuid_rejected [] _ 7 rfl

/-- C10: a webhook payload whose `_uuid` field is present but falsy (the
empty string) is rejected exactly as an absent `_uuid`: 400 Bad Request,
the Missing-_uuid error body, and an unchanged submission table. -/
theorem C10_webhook_falsy_uuid_rejected (store : Store) (p : Payload)
    (now : Int) (h : p.uuid = some "") :
    KoboWebhookView.post store p now
      = (.badRequest "Missing _uuid in payload", store) := by
  simp [KoboWebhookView.post, truthy, h]

/-- C10 witness: the rejection at a concrete payload carrying an empty
`_uuid` over a concrete one-row table, which is left untouched. -/
theorem C10_webhook_falsy_uuid_rejected_witness :
    KoboWebhookView.post
        [⟨"u1", "f1", ⟨some "u1", some "f1", none, .absent, []⟩, ⟨0, some 0⟩, 1, 1⟩]
        ⟨some "", some "f1", none, .absent, []⟩ 7
      = (.badRequest "Missing _uuid in payload",
        [⟨"u1", "f1", ⟨some "u1", some "f1", none, .absent, []⟩, ⟨0, some 0⟩, 1, 1⟩]) :=
  C10_webhook_falsy_uuid_rejected _ _ 7 rfl

/-- Counters reported by the batch sync command's summary. -/
structure SyncCounts where
  created : Nat
  updated : Nat
  skipped : Nat
deriving DecidableEq, Repr

/-- One iteration of the sync loop of `Command.handle`
(src/api/management/commands/fetch_kobo_data.py lines 88-127): skip and
count a submission without a truthy `_uuid`; otherwise normalize the
timestamp, call `update_or_create`, and bump `created` on a new row, else
`updated` when `--force-update` was given, else `skipped`. -/
def batchSyncStep (force_update : Bool) (form_uid : String) (now : Int)
    (acc : Store × SyncCounts) (submission : Payload) : Store × SyncCounts :=
  let store := acc.1
  let c := acc.2
  if !truthy submission.uuid then
    (store, { c with skipped := c.skipped + 1 })
  else
    let uuid := submission.uuid.getD ""
    let date_submitted := batchDateSubmitted submission.submission_time now
    let res := update_or_create store uuid form_uid submission date_submitted now
    if res.2 then (res.1, { c with created := c.created + 1 })
    else if force_update then (res.1, { c with updated := c.updated + 1 })
    else (res.1, { c with skipped := c.skipped + 1 })

/-- The sync loop of `Command.handle` over the fetched submissions, with all
counters starting at zero. The processing instant is a parameter of the
run. -/
def batchSync (force_update : Bool) (form_uid : String)
    (subs : List Payload) (store : Store) (now : Int) : Store × SyncCounts :=
  subs.foldl (batchSyncStep force_update form_uid now) (store, ⟨0, 0, 0⟩)

/-- C1: evaluation of the batch sync at a concrete already-synced
submission, without the force flag. The run reports zero created, zero
updated and one skipped — but the stored row is overwritten all the same:
`Command.handle` calls `update_or_create` for every fetched submission
regardless of `--force-update` (the flag only selects which counter is
bumped), so the row's `data` changes from the stored payload to the fetched
one and `date_updated` moves from 1 to the run instant 10, contradicting
the claim that the record is left unchanged. -/
theorem C1_batch_overwrites_despite_skip_count :
    batchSync false "f1"
        [⟨some "u1", none, none, .okNaive 0, [("q", "b")]⟩]
        [⟨"u1", "f1", ⟨some "u1", some "f1", none, .okNaive 0, [("q", "a")]⟩,
          ⟨0, some 0⟩, 1, 1⟩] 10
      = ([⟨"u1", "f1", ⟨some "u1", none, none, .okNaive 0, [("q", "b")]⟩,
          ⟨0, some 0⟩, 1, 10⟩], ⟨0, 0, 1⟩)
    ∧ (⟨some "u1", none, none, .okNaive 0, [("q", "b")]⟩ : Payload)
        ≠ ⟨some "u1", some "f1", none, .okNaive 0, [("q", "a")]⟩
    ∧ (10 : Int) ≠ 1 := by
  refine ⟨?_, by decide, by decide⟩
  decide

/-- C3: idempotence of the webhook Reconciler. For every payload carrying a
truthy `_uuid` not yet present in the table, posting it twice (at the same
processing instant) appends exactly one row: the first call answers
201/"created", the second 200/"updated" and leaves the table unchanged,
exactly one row for the uuid exists, and that row's normalized fields are
the payload's form uid, the payload itself, and the normalized timestamp
after both calls. -/
theorem C3_reconciler_upsert_idempotent (store : Store) (p : Payload)
    (now : Int) (u : String) (hu : p.uuid = some u) (hne : u ≠ "")
    (habs : store.countP (fun r => r.uuid == u) = 0) :
    ∃ r : KoboSubmission,
      (KoboWebhookView.post store p now).1 = .ok "created" u 201
      ∧ (KoboWebhookView.post store p now).2 = store ++ [r]
      ∧ (KoboWebhookView.post (store ++ [r]) p now).1 = .ok "updated" u 200
      ∧ (KoboWebhookView.post (store ++ [r]) p now).2 = store ++ [r]
      ∧ (store ++ [r]).countP (fun s => s.uuid == u) = 1
      ∧ r.form_uid = p.form_uid ∧ r.data = p
      ∧ r.date_submitted = webhookDateSubmitted p.submission_time now := by
  have htru : truthy (some u) = true := by
    simp [truthy, hne]
  have hfalse : ∀ s ∈ store, (s.uuid == u) = false := by
    intro s hs
    have := List.countP_eq_zero.mp habs s hs
    simpa using this
  have hany : store.any (fun s => s.uuid == u) = false := by
    simp only [List.any_eq_false, Bool.not_eq_true]
    intro s hs
    exact hfalse s hs
  have hmap : ∀ l : Store, (∀ s ∈ l, (s.uuid == u) = false) →
      l.map (fun r =>
        if r.uuid = u then
          { r with form_uid := p.form_uid, data := p,
                   date_submitted := webhookDateSubmitted p.submission_time now,
                   date_updated := now }
        else r) = l := by
    intro l hl
    induction l with
    | nil => rfl
    | cons a t ih =>
      simp only [List.map_cons]
      rw [if_neg (by simpa using hl a (List.mem_cons_self a t)),
        ih (fun s hs => hl s (List.mem_cons_of_mem a hs))]
  refine ⟨⟨u, p.form_uid, p, webhookDateSubmitted p.submission_time now, now, now⟩,
    ?_, ?_, ?_, ?_, ?_, rfl, rfl, rfl⟩ <;>
    simp [KoboWebhookView.post, htru, hu, update_or_create, hany, hfalse,
      List.countP_append, habs, List.map_append, hmap store hfalse]

/-- C3 witness: the idempotent double-post of a concrete payload over the
empty table. -/
theorem C3_reconciler_upsert_idempotent_witness :
    ∃ r : KoboSubmission,
      (KoboWebhookView.post []
          ⟨some "u1", some "f1", none, .okNaive 100, [("q", "a")]⟩ 5).1
        = .ok "created" "u1" 201
      ∧ (KoboWebhookView.post []
          ⟨some "u1", some "f1", none, .okNaive 100, [("q", "a")]⟩ 5).2
        = [] ++ [r]
      ∧ (KoboWebhookView.post ([] ++ [r])
          ⟨some "u1", some "f1", none, .okNaive 100, [("q", "a")]⟩ 5).1
        = .ok "updated" "u1" 200
      ∧ (KoboWebhookView.post ([] ++ [r])
          ⟨some "u1", some "f1", none, .okNaive 100, [("q", "a")]⟩ 5).2
        = [] ++ [r]
      ∧ ([] ++ [r]).countP (fun s : KoboSubmission => s.uuid == "u1") = 1
      ∧ r.form_uid = Payload.form_uid
          ⟨some "u1", some "f1", none, .okNaive 100, [("q", "a")]⟩
      ∧ r.data = ⟨some "u1", some "f1", none, .okNaive 100, [("q", "a")]⟩
      ∧ r.date_submitted = webhookDateSubmitted (.okNaive 100) 5 :=
  C3_reconciler_upsert_idempotent []
    ⟨some "u1", some "f1", none, .okNaive 100, [("q", "a")]⟩ 5 "u1"
    rfl (by decide) rfl


/-- The row that a reconciliation write for payload `p` at instant `now`
puts in place of an existing row `r` with the same uuid: the `defaults`
fields of `update_or_create` are overwritten and `auto_now` refreshes
`date_updated`; `uuid` and `date_synced` are untouched. -/
def reconciledRow (r : KoboSubmission) (p : Payload) (now : Int) : KoboSubmission :=
  { r with
      form_uid := p.form_uid,
      data := p,
      date_submitted := webhookDateSubmitted p.submission_time now,
      date_updated := now }

/-- C7: a webhook Reconciler write to an existing row keyed by the payload's
uuid replaces it by `reconciledRow`: `date_synced` is carried over unchanged
from the stored row (`auto_now_add` sets it only at first persistence),
while `auto_now` sets `date_updated` to the write instant; hence whenever
write instants do not decrease, `date_updated` never decreases across
reconciliation writes to the same uuid. -/
theorem C7_date_synced_immutable_date_updated_refreshed
    (store : Store) (p : Payload) (now : Int) (u : String) (r : KoboSubmission)
    (hu : p.uuid = some u) (hne : u ≠ "") (hr : r ∈ store) (hru : r.uuid = u) :
    reconciledRow r p now ∈ (KoboWebhookView.post store p now).2
    ∧ (reconciledRow r p now).date_synced = r.date_synced
    ∧ (reconciledRow r p now).date_updated = now
    ∧ (r.date_updated ≤ now →
        r.date_updated ≤ (reconciledRow r p now).date_updated) := by
  have htru : truthy (some u) = true := by simp [truthy, hne]
  have hany : store.any (fun s => s.uuid == u) = true := by
    refine List.any_eq_true.mpr ⟨r, hr, ?_⟩
    simp [hru]
  refine ⟨?_, rfl, rfl, fun h => h⟩
  simp only [KoboWebhookView.post, hu, htru, update_or_create, hany,
    Bool.not_true, Bool.false_eq_true, if_false, if_true, Option.getD_some]
  exact List.mem_map.mpr ⟨r, hr, by simp [reconciledRow, hru]⟩

/-- C7 witness: a write over a concrete one-row table at instant 9, keeping
`date_synced` at 1 and refreshing `date_updated` from 1 to 9. -/
theorem C7_date_synced_immutable_date_updated_refreshed_witness :
    reconciledRow
        ⟨"u1", "f0", ⟨some "u1", some "f0", none, .absent, []⟩, ⟨0, some 0⟩, 1, 1⟩
        ⟨some "u1", some "f1", none, .okNaive 50, []⟩ 9
      ∈ (KoboWebhookView.post
          [⟨"u1", "f0", ⟨some "u1", some "f0", none, .absent, []⟩, ⟨0, some 0⟩, 1, 1⟩]
          ⟨some "u1", some "f1", none, .okNaive 50, []⟩ 9).2
    ∧ (reconciledRow
        ⟨"u1", "f0", ⟨some "u1", some "f0", none, .absent, []⟩, ⟨0, some 0⟩, 1, 1⟩
        ⟨some "u1", some "f1", none, .okNaive 50, []⟩ 9).date_synced
      = (⟨"u1", "f0", ⟨some "u1", some "f0", none, .absent, []⟩,
          ⟨0, some 0⟩, 1, 1⟩ : KoboSubmission).date_synced
    ∧ (reconciledRow
        ⟨"u1", "f0", ⟨some "u1", some "f0", none, .absent, []⟩, ⟨0, some 0⟩, 1, 1⟩
        ⟨some "u1", some "f1", none, .okNaive 50, []⟩ 9).date_updated = 9
    ∧ ((⟨"u1", "f0", ⟨some "u1", some "f0", none, .absent, []⟩,
          ⟨0, some 0⟩, 1, 1⟩ : KoboSubmission).date_updated ≤ 9 →
        (⟨"u1", "f0", ⟨some "u1", some "f0", none, .absent, []⟩,
          ⟨0, some 0⟩, 1, 1⟩ : KoboSubmission).date_updated
          ≤ (reconciledRow
              ⟨"u1", "f0", ⟨some "u1", some "f0", none, .absent, []⟩, ⟨0, some 0⟩, 1, 1⟩
              ⟨some "u1", some "f1", none, .okNaive 50, []⟩ 9).date_updated) :=
  C7_date_synced_immutable_date_updated_refreshed
    [⟨"u1", "f0", ⟨some "u1", some "f0", none, .absent, []⟩, ⟨0, some 0⟩, 1, 1⟩]
    ⟨some "u1", some "f1", none, .okNaive 50, []⟩ 9 "u1"
    ⟨"u1", "f0", ⟨some "u1", some "f0", none, .absent, []⟩, ⟨0, some 0⟩, 1, 1⟩
    rfl (by decide) (List.mem_cons_self _ _) rfl

/-- Python `a or b` for an optional string `a` with default `b`: the value
of `a` when truthy, else `b`. -/
def pyOrStr (a : Option String) (b : String) : String :=
  if truthy a then a.getD "" else b

/-- A constructed API client: the fields `KoboToolboxClient.__init__`
stores (src/api/services/kobo_client.py lines 46-50). -/
structure KoboToolboxClient where
  token : String
  base_url : String
  timeout : Nat
deriving DecidableEq, Repr

/-- `KoboToolboxClient.__init__` (src/api/services/kobo_client.py lines
32-63): `token or os.getenv("KOBO_TOKEN", "")`, then `base_url or
os.getenv("KOBO_BASE_URL", "https://kf.kobotoolbox.org")`, then raise a
`ValueError` when the resulting token is empty. The environment reads are
explicit arguments (`none` = variable unset). The second component is the
list of HTTP requests issued during construction — always empty: the
session is configured locally, without any network call. -/
def KoboToolboxClient.construct (token base_url envToken envBaseUrl : Option String)
    (timeout : Nat) : Except String KoboToolboxClient × List String :=
  let tok := pyOrStr token (envToken.getD "")
  let burl := pyOrStr base_url (envBaseUrl.getD "https://kf.kobotoolbox.org")
  if tok == "" then
    (.error "KOBO_TOKEN must be provided or set as environment variable", [])
  else
    (.ok { token := tok, base_url := burl, timeout := timeout }, [])

/-- C8: constructing the client with no token supplied — argument absent or
falsy and environment variable unset or empty — yields the configuration
`ValueError` with no HTTP request issued; constructing it with a non-empty
token argument succeeds, also with no HTTP request issued. -/
theorem C8_client_requires_token
    (token base_url envToken envBaseUrl : Option String) (timeout : Nat) :
    (¬ truthy token = true → ¬ truthy envToken = true →
      KoboToolboxClient.construct token base_url envToken envBaseUrl timeout
        = (.error "KOBO_TOKEN must be provided or set as environment variable", []))
    ∧ (∀ t : String, token = some t → t ≠ "" →
      KoboToolboxClient.construct token base_url envToken envBaseUrl timeout
        = (.ok { token := t,
                 base_url := pyOrStr base_url
                   (envBaseUrl.getD "https://kf.kobotoolbox.org"),
                 timeout := timeout }, [])) := by
  constructor
  · intro h1 h2
    cases token with
    | none =>
      cases envToken with
      | none => simp [KoboToolboxClient.construct, pyOrStr, truthy]
      | some e =>
        have he : e = "" := by simpa [truthy] using h2
        subst he
        simp [KoboToolboxClient.construct, pyOrStr, truthy]
    | some t =>
      have ht : t = "" := by simpa [truthy] using h1
      subst ht
      cases envToken with
      | none => simp [KoboToolboxClient.construct, pyOrStr, truthy]
      | some e =>
        have he : e = "" := by simpa [truthy] using h2
        subst he
        simp [KoboToolboxClient.construct, pyOrStr, truthy]
  · intro t ht hne
    subst ht
    simp [KoboToolboxClient.construct, pyOrStr, truthy, hne]

/-- C8 witness: construction with everything unset errors without network
activity; construction with a literal token succeeds without network
activity. -/
theorem C8_client_requires_token_witness :
    (KoboToolboxClient.construct none none none none 30
      = (.error "KOBO_TOKEN must be provided or set as environment variable", []))
    ∧ (KoboToolboxClient.construct (some "tok") none none none 30
      = (.ok { token := "tok",
               base_url := pyOrStr none
                 ((none : Option String).getD "https://kf.kobotoolbox.org"),
               timeout := 30 }, [])) :=
  ⟨(C8_client_requires_token none none none none 30).1 (by decide) (by decide),
   (C8_client_requires_token (some "tok") none none none 30).2 "tok" rfl (by decide)⟩

/-- Outcome of one `self.session.request(...)` call followed by decoding
the body with `response.json()`: either the server produced a terminal
response (HTTP status, body text, and the decode outcome of the body), or
the transport raised a `requests.RequestException` carrying `msg`. -/
inductive HttpOutcome (J : Type) where
  | response (status : Nat) (body : String) (decoded : Except String J)
  | failure (msg : String)

/-- The single error kind the client raises (`KoboAPIException`,
src/api/services/kobo_client.py lines 16-19), carrying the formatted
message. -/
structure KoboAPIException where
  msg : String
deriving DecidableEq, Repr

/-- `response.raise_for_status()` raises `requests.exceptions.HTTPError`
exactly for the statuses 400-599. -/
def raisesForStatus (status : Nat) : Bool :=
  decide (400 ≤ status) && decide (status < 600)

/-- `KoboToolboxClient._make_request` (src/api/services/kobo_client.py
lines 65-93): issue the request once; wrap an `HTTPError` as
`HTTP <status>: <body>`, any other `RequestException` as
`Request failed: <msg>`, and an undecodable body on a non-raising status as
`Invalid JSON response: <err>` — all as `KoboAPIException`, with no
retries. The second component counts the HTTP requests issued. -/
def make_request (J : Type) (outcome : HttpOutcome J) :
    Except KoboAPIException J × Nat :=
  match outcome with
  | .failure msg => (.error ⟨"Request failed: " ++ msg⟩, 1)
  | .response status body decoded =>
    if raisesForStatus status then
      (.error ⟨"HTTP " ++ toString status ++ ": " ++ body⟩, 1)
    else
      match decoded with
      | .error e => (.error ⟨"Invalid JSON response: " ++ e⟩, 1)
      | .ok j => (.ok j, 1)

/-- One page of the remote submissions endpoint as the client observes it:
`get_submissions(form_uid, limit=limit, start=start)` returns the records
of the server's submission sequence `subs` from offset `start`, at most
`limit` of them (src/api/services/kobo_client.py lines 117-138 together
with the server-side paging contract of `GET .../data/?start=&limit=`). -/
def get_submissions (S : Type) (subs : List S) (limit start : Nat) : List S :=
  (subs.drop start).take limit

/-- The pagination loop of `get_all_submissions` started at offset `start`
(src/api/services/kobo_client.py lines 150-164): fetch a page of 1000,
stop on an empty page, otherwise accumulate the page and stop as soon as
the page is shorter than 1000, else advance the offset by 1000. (An empty
final page contributes nothing to the accumulator, so the two stop
conditions collapse into one.) Returns the accumulated records together
with the list of requested offsets, in request order. -/
def get_all_aux (S : Type) (subs : List S) (start : Nat) : List S × List Nat :=
  if (get_submissions S subs 1000 start).length < 1000 then
    (get_submissions S subs 1000 start, [start])
  else
    (get_submissions S subs 1000 start ++ (get_all_aux S subs (start + 1000)).1,
     start :: (get_all_aux S subs (start + 1000)).2)
termination_by subs.length - start
decreasing_by
  rename_i h
  simp only [get_submissions, List.length_take, List.length_drop] at h
  omega

/-- `get_all_submissions(form_uid)` (src/api/services/kobo_client.py lines
140-164): the pagination loop from offset 0. -/
def get_all_submissions (S : Type) (subs : List S) : List S × List Nat :=
  get_all_aux S subs 0

/-- Unfolding of the requested-offsets component of the pagination loop. -/
theorem get_all_aux_starts_eq (S : Type) (subs : List S) (start : Nat) :
    (get_all_aux S subs start).2 =
      if (get_submissions S subs 1000 start).length < 1000 then [start]
      else start :: (get_all_aux S subs (start + 1000)).2 := by
  rw [get_all_aux]
  split <;> rfl

/-- The pagination loop accumulates exactly the tail of the server
sequence from its starting offset: pages are concatenated in fetch order
and nothing is missed or repeated. -/
theorem get_all_aux_records (S : Type) (subs : List S) (start : Nat) :
    (get_all_aux S subs start).1 = subs.drop start := by
  rw [get_all_aux]
  split
  · rename_i h
    simp only [get_submissions, List.length_take, List.length_drop] at h
    simp only [get_submissions]
    exact List.take_of_length_le (by simp only [List.length_drop]; omega)
  · rw [get_all_aux_records S subs (start + 1000)]
    simp only [get_submissions]
    have hdd : subs.drop (start + 1000) = (subs.drop start).drop 1000 := by
      rw [List.drop_drop, Nat.add_comm]
    rw [hdd]
    exact List.take_append_drop 1000 (subs.drop start)
termination_by subs.length - start
decreasing_by
  simp only [get_submissions, List.length_take, List.length_drop] at *
  omega

/-- The requested offsets always begin with the starting offset. -/
theorem get_all_aux_starts_cons (S : Type) (subs : List S) (start : Nat) :
    ∃ t, (get_all_aux S subs start).2 = start :: t := by
  rw [get_all_aux_starts_eq]
  split
  · exact ⟨[], rfl⟩
  · exact ⟨_, rfl⟩

/-- Every requested offset is the starting offset advanced by a multiple
of the page size 1000. -/
theorem get_all_aux_starts_form (S : Type) (subs : List S) (start : Nat) :
    ∀ x ∈ (get_all_aux S subs start).2, ∃ k : Nat, x = start + 1000 * k := by
  intro x hx
  rw [get_all_aux_starts_eq] at hx
  split at hx
  · have : x = start := by simpa using hx
    exact ⟨0, by omega⟩
  · rcases List.mem_cons.mp hx with h | h
    · exact ⟨0, by omega⟩
    · obtain ⟨k, hk⟩ := get_all_aux_starts_form S subs (start + 1000) x h
      exact ⟨k + 1, by omega⟩
termination_by subs.length - start
decreasing_by
  simp only [get_submissions, List.length_take, List.length_drop] at *
  omega

/-- The requested offsets are strictly increasing. -/
theorem get_all_aux_starts_chain (S : Type) (subs : List S) (start : Nat) :
    (get_all_aux S subs start).2.Chain' (· < ·) := by
  rw [get_all_aux_starts_eq]
  split
  · simp
  · obtain ⟨t, ht⟩ := get_all_aux_starts_cons S subs (start + 1000)
    have hc := get_all_aux_starts_chain S subs (start + 1000)
    rw [ht] at hc ⊢
    exact List.chain'_cons.mpr ⟨by omega, hc⟩
termination_by subs.length - start
decreasing_by
  simp only [get_submissions, List.length_take, List.length_drop] at *
  omega

/-- No page offset is ever requested twice. -/
theorem get_all_aux_starts_nodup (S : Type) (subs : List S) (start : Nat) :
    (get_all_aux S subs start).2.Nodup :=
  (List.chain'_iff_pairwise.mp (get_all_aux_starts_chain S subs start)).imp
    Nat.ne_of_lt

/-- The loop requests offset `t + 1000` exactly when it requested offset
`t` and the page there was full: it stops exactly at the first page
shorter than the page size. -/
theorem get_all_aux_next_page (S : Type) (subs : List S) (start t : Nat)
    (hbt : start ≤ t) :
    (t + 1000 ∈ (get_all_aux S subs start).2)
      ↔ (t ∈ (get_all_aux S subs start).2
        ∧ (get_submissions S subs 1000 t).length = 1000) := by
  rw [get_all_aux_starts_eq]
  split
  · rename_i h
    constructor
    · intro hx
      have : t + 1000 = start := by simpa using hx
      omega
    · rintro ⟨hx, hlen⟩
      have : t = start := by simpa using hx
      subst this
      omega
  · rename_i h
    have hfull : (get_submissions S subs 1000 start).length = 1000 := by
      simp only [get_submissions, List.length_take, List.length_drop] at h ⊢
      omega
    by_cases hts : t = start
    · subst hts
      obtain ⟨r, hr⟩ := get_all_aux_starts_cons S subs (t + 1000)
      constructor
      · intro _
        exact ⟨List.mem_cons_self t _, hfull⟩
      · intro _
        rw [hr]
        exact List.mem_cons_of_mem t (List.mem_cons_self (t + 1000) r)
    · rcases Nat.lt_or_ge t (start + 1000) with hlt | hge
      · constructor
        · intro hx
          rcases List.mem_cons.mp hx with hx1 | hx2
          · omega
          · obtain ⟨k, hk⟩ := get_all_aux_starts_form S subs (start + 1000) _ hx2
            omega
        · rintro ⟨hx, -⟩
          rcases List.mem_cons.mp hx with hx1 | hx2
          · exact absurd hx1 hts
          · obtain ⟨k, hk⟩ := get_all_aux_starts_form S subs (start + 1000) _ hx2
            omega
      · have ih := get_all_aux_next_page S subs (start + 1000) t hge
        constructor
        · intro hx
          rcases List.mem_cons.mp hx with hx1 | hx2
          · omega
          · obtain ⟨hm, hl⟩ := ih.mp hx2
            exact ⟨List.mem_cons_of_mem start hm, hl⟩
        · rintro ⟨hx, hl⟩
          rcases List.mem_cons.mp hx with hx1 | hx2
          · exact absurd hx1 hts
          · exact List.mem_cons_of_mem start (ih.mpr ⟨hx2, hl⟩)
termination_by subs.length - start
decreasing_by
  simp only [get_submissions, List.length_take, List.length_drop] at *
  omega

/-- C4: `get_all_submissions` concatenates the pages of the server
sequence in fetch order and misses nothing (its records are the whole
sequence); a page offset `t + 1000` is requested exactly when offset `t`
was requested and the page there was full, i.e. the loop advances by the
fixed page size 1000 and stops exactly at the first page shorter than the
page size; and for a form with exactly 2500 submissions, exactly the three
offsets 0, 1000, 2000 are requested, the three pages have lengths 1000,
1000 and 500, and the returned sequence has length 2500. -/
theorem C4_get_all_submissions_pagination (S : Type) (subs : List S) :
    (get_all_submissions S subs).1 = subs
    ∧ (∀ t : Nat,
        t + 1000 ∈ (get_all_submissions S subs).2
          ↔ t ∈ (get_all_submissions S subs).2
            ∧ (get_submissions S subs 1000 t).length = 1000)
    ∧ (subs.length = 2500 →
        (get_all_submissions S subs).2 = [0, 1000, 2000]
        ∧ (get_submissions S subs 1000 0).length = 1000
        ∧ (get_submissions S subs 1000 1000).length = 1000
        ∧ (get_submissions S subs 1000 2000).length = 500
        ∧ (get_all_submissions S subs).1.length = 2500) := by
  refine ⟨?_, ?_, ?_⟩
  · rw [get_all_submissions, get_all_aux_records]
    exact List.drop_zero subs
  · intro t
    exact get_all_aux_next_page S subs 0 t (Nat.zero_le t)
  · intro h
    have l0 : (get_submissions S subs 1000 0).length = 1000 := by
      simp only [get_submissions, List.length_take, List.length_drop, h]
      omega
    have l1 : (get_submissions S subs 1000 1000).length = 1000 := by
      simp only [get_submissions, List.length_take, List.length_drop, h]
      omega
    have l2 : (get_submissions S subs 1000 2000).length = 500 := by
      simp only [get_submissions, List.length_take, List.length_drop, h]
      omega
    have e2 : (get_all_aux S subs 2000).2 = [2000] := by
      rw [get_all_aux_starts_eq, if_pos (by simp [l2])]
    have e1 : (get_all_aux S subs 1000).2 = 1000 :: [2000] := by
      rw [get_all_aux_starts_eq, if_neg (by simp [l1])]
      norm_num [e2]
    have e0 : (get_all_aux S subs 0).2 = 0 :: 1000 :: [2000] := by
      rw [get_all_aux_starts_eq, if_neg (by simp [l0])]
      norm_num [e1]
    refine ⟨?_, l0, l1, l2, ?_⟩
    · rw [get_all_submissions, e0]
    · rw [get_all_submissions, get_all_aux_records]
      simp [h]

/-- C4 witness: the 2500-record run at a concrete server sequence. -/
theorem C4_get_all_submissions_pagination_witness :
    (List.replicate 2500 0).length = 2500
    ∧ ((get_all_submissions Nat (List.replicate 2500 0)).2 = [0, 1000, 2000]
      ∧ (get_submissions Nat (List.replicate 2500 0) 1000 0).length = 1000
      ∧ (get_submissions Nat (List.replicate 2500 0) 1000 1000).length = 1000
      ∧ (get_submissions Nat (List.replicate 2500 0) 1000 2000).length = 500
      ∧ (get_all_submissions Nat (List.replicate 2500 0)).1.length = 2500) :=
  ⟨List.length_replicate 2500 0,
   (C4_get_all_submissions_pagination Nat (List.replicate 2500 0)).2.2
     (List.length_replicate 2500 0)⟩

/-- C9 counterexample: `response.raise_for_status()` raises only for the
statuses 400-599, so a terminal non-2xx response outside that band — here
a 304 Not Modified whose body happens to decode — is returned by
`_make_request` as a success, not surfaced as a `KoboAPIException`: the
claim that any non-2xx response is surfaced as the API error fails at
status 304. -/
theorem C9_non2xx_not_always_error :
    (make_request Nat (.response 304 "" (.ok 7))).1 = .ok 7
    ∧ ¬ (200 ≤ 304 ∧ 304 < 300) := ⟨rfl, by omega⟩

/-- C9 (amended): every `_make_request` call issues exactly one HTTP
request — no retries; a transport failure, a 4xx/5xx response, and an
undecodable body on a non-raising status are each surfaced as the single
error kind `KoboAPIException` carrying the corresponding message (the HTTP
status and body, the transport message, or the decode error); and the
pagination loop requests every page offset at most once. -/
theorem C9_single_error_kind_no_retries :
    (∀ (J : Type) (o : HttpOutcome J), (make_request J o).2 = 1)
    ∧ (∀ (J : Type) (msg : String),
        (make_request J (.failure msg)).1
          = .error ⟨"Request failed: " ++ msg⟩)
    ∧ (∀ (J : Type) (status : Nat) (body : String) (decoded : Except String J),
        400 ≤ status → status < 600 →
        (make_request J (.response status body decoded)).1
          = .error ⟨"HTTP " ++ toString status ++ ": " ++ body⟩)
    ∧ (∀ (J : Type) (status : Nat) (body e : String),
        raisesForStatus status = false →
        (make_request J (.response status body (.error e))).1
          = .error ⟨"Invalid JSON response: " ++ e⟩)
    ∧ (∀ (S : Type) (subs : List S), (get_all_submissions S subs).2.Nodup) := by
  refine ⟨?_, fun _ _ => rfl, ?_, ?_, ?_⟩
  · intro J o
    rcases o with ⟨status, body, decoded⟩ | msg
    · by_cases hs : raisesForStatus status
      · simp [make_request, hs]
      · rcases decoded with e | j <;> simp [make_request, hs]
    · rfl
  · intro J status body decoded h4 h6
    have hs : raisesForStatus status = true := by
      simp [raisesForStatus]
      omega
    simp [make_request, hs]
  · intro J status body e hs
    simp [make_request, hs]
  · intro S subs
    exact get_all_aux_starts_nodup S subs 0

/-- C9 witness: the three failure modes at concrete inputs, each surfaced
as the single error kind with one request issued. -/
theorem C9_single_error_kind_no_retries_witness :
    (make_request Nat (.response 404 "missing" (.ok 3))).1
      = .error ⟨"HTTP " ++ toString 404 ++ ": " ++ "missing"⟩
    ∧ (make_request Nat (.failure "conn")).2 = 1
    ∧ (make_request Nat (.response 200 "x" (Except.error "bad"))).1
      = .error ⟨"Invalid JSON response: " ++ "bad"⟩ :=
  ⟨C9_single_error_kind_no_retries.2.2.1 Nat 404 "missing" (.ok 3)
      (by omega) (by omega),
   C9_single_error_kind_no_retries.1 Nat (.failure "conn"),
   C9_single_error_kind_no_retries.2.2.2.1 Nat 200 "x" "bad" (by decide)⟩
